import Mathlib

/-!
Shallow embedding of the user/session state manager of the expo-boilerplate
repository (`utils/userManager.ts`) together with its event emitter
(`utils/eventEmitter.ts`, class `SimpleEventEmitter`).

JavaScript objects `Record<string, any>` are modelled as association lists
with string keys (`RecordV`); the object spread merge `{...m, ...p}` is
`rmerge`, the `delete obj[key]` statement is `rdelete`.  Timestamps
(`new Date()`) are modelled as natural numbers supplied explicitly to the
operations that read the clock.  Asynchronous storage operations that can
fail are modelled by explicit fault flags (`StorageFaults`): a flag set to
`true` means the corresponding backend call rejects.  Each manager
operation maps the in-memory state, the persisted state and the fault
configuration to an `Outcome`: the new in-memory state, the new persisted
state, the ordered list of performed side effects (`Action` trace) and the
result (normal resolution or a typed `UserManagerError`).
-/

namespace ExpoBoilerplate

/-- JSON-serializable values stored in the user-data maps. -/
inductive Value
  | vNat : Nat → Value
  | vStr : String → Value
  | vBool : Bool → Value
deriving DecidableEq

/-- A JavaScript object `Record<string, any>`: an association list keyed by
strings.  Objects built by the source always have pairwise distinct keys. -/
abbrev RecordV := List (String × Value)

/-- Property read `m[k]`: the value at the first occurrence of key `k`. -/
def rlookup : RecordV → String → Option Value
  | [], _ => none
  | (k', v) :: rest, k => if k' = k then some v else rlookup rest k

/-- Property write `m[k] = v`: overwrite the first occurrence of `k` in
place, or append the binding when `k` is absent. -/
def rset : RecordV → String → Value → RecordV
  | [], k, v => [(k, v)]
  | (k', v') :: rest, k, v =>
      if k' = k then (k, v) :: rest else (k', v') :: rset rest k v

/-- Object spread `{...m, ...p}`: start from `m` and write every binding of
`p` in order, later bindings winning. -/
def rmerge (m p : RecordV) : RecordV :=
  p.foldl (fun acc kv => rset acc kv.1 kv.2) m

/-- The statement `delete m[k]`. -/
def rdelete (m : RecordV) (k : String) : RecordV :=
  m.filter (fun kv => kv.1 ≠ k)

/-- Value at the last occurrence of `k`; this is the binding that survives
a spread of the record onto another object. -/
def rlookupLast : RecordV → String → Option Value
  | [], _ => none
  | (k', v) :: rest, k =>
      match rlookupLast rest k with
      | some w => some w
      | none => if k' = k then some v else none

/-- The keys of a record. -/
def rkeys (m : RecordV) : List String := m.map Prod.fst

/-- The `User` interface of `userManager.ts`. -/
structure User where
  id : String
  email : Option String := none
  name : Option String := none
  avatarURL : Option String := none
  createdAt : Nat
  lastLoginAt : Nat
  preferences : RecordV := []
  customData : RecordV := []
deriving DecidableEq

/-- The in-memory state of `UserManager`: fields `_currentUser`,
`_isSignedIn`, `_isOnboardingCompleted`, `_userData`. -/
structure ManagerState where
  currentUser : Option User := none
  isSignedIn : Bool := false
  isOnboardingCompleted : Bool := false
  userData : RecordV := []
deriving DecidableEq

/-- The durable state: what the storage backend holds (`saved_user`,
`onboarding_completed`, `user_data`) plus the separately persisted
`session_token` and `last_sync_date` keys. -/
structure StorageState where
  savedUser : Option User := none
  onboardingFlag : Bool := false
  userDataStore : RecordV := []
  sessionToken : Option String := none
  lastSyncDate : Option Nat := none
deriving DecidableEq

/-- Which storage operations reject during a run.  `true` means the
corresponding asynchronous call throws a storage error. -/
structure StorageFaults where
  saveUserFails : Bool := false
  deleteUserFails : Bool := false
  saveOnboardingFails : Bool := false
  saveUserDataFails : Bool := false
  removeSessionTokenFails : Bool := false
  removeLastSyncFails : Bool := false
deriving DecidableEq

/-- The fault configuration in which every storage operation succeeds. -/
def noFaults : StorageFaults := {}

/-- The `UserManagerErrorType` values reachable from the modelled
operations. -/
inductive UMError
  | notSignedIn
  | invalidUserData
  | storageError
deriving DecidableEq

/-- Result of an operation: normal resolution or a typed rejection. -/
inductive OpRes
  | ok
  | err : UMError → OpRes
deriving DecidableEq

/-- Payload published together with an event name. -/
inductive EventPayload
  | pUser : User → EventPayload
  | pFlag : Bool → EventPayload
  | pRecord : RecordV → EventPayload
  | pUnit
deriving DecidableEq

/-- One observable side effect of a manager operation, in the order the
source performs them: a completed backend write, an in-memory commit, an
event emission, or a call into a dependent-subsystem adapter. -/
inductive Action
  | persistSaveUser : User → Action
  | persistDeleteUser
  | persistSaveOnboarding : Bool → Action
  | persistSaveUserData : RecordV → Action
  | removeSessionToken
  | removeLastSync
  | commitSignIn : User → Action
  | commitSignOut
  | commitOnboarding : Bool → Action
  | commitUserData : RecordV → Action
  | commitProfile : User → Action
  | commitReset
  | emitEvent : String → EventPayload → Action
  | setUserAttributes
  | resetAttribution
  | setBearerToken : Option String → Action
  | startCampaign
  | stopCampaign
deriving DecidableEq

/-- Result of running one manager operation. -/
structure Outcome where
  mem : ManagerState
  store : StorageState
  trace : List Action
  result : OpRes
deriving DecidableEq

/-- The events published during a trace, in order. -/
def emittedEvents (t : List Action) : List (String × EventPayload) :=
  t.filterMap fun a =>
    match a with
    | .emitEvent n p => some (n, p)
    | _ => none

/-- How often an event with the given name is published in a trace. -/
def emitCount (t : List Action) (name : String) : Nat :=
  ((emittedEvents t).map Prod.fst).count name

/-- JavaScript `String.prototype.trim()`: the string with leading and
trailing whitespace characters removed. -/
def jsTrim (s : String) : String :=
  String.mk (((s.data.dropWhile Char.isWhitespace).reverse.dropWhile
    Char.isWhitespace).reverse)

/-- JavaScript `a ?? b` on two optional strings. -/
def nullish (a b : Option String) : Option String :=
  match a with
  | some x => some x
  | none => b

/-- `UserManager.signIn(userId, email?, name?, avatarURL?)`.  Throws
`invalidUserData` when `userId.trim()` is empty; builds a fresh `User`
with `createdAt = lastLoginAt = now`; persists it (a failure is rethrown
as a storage error and nothing is committed); on success commits the
in-memory state, publishes `userSignedIn` and runs `setupUserServices`
(attribution push, then bearer-token push when a session token is
stored). -/
def signIn (f : StorageFaults) (now : Nat) (userId : String)
    (email name avatarURL : Option String)
    (mem : ManagerState) (store : StorageState) : Outcome :=
  if jsTrim userId = "" then
    { mem := mem, store := store, trace := [], result := .err .invalidUserData }
  else
    let user : User :=
      { id := userId, email := email, name := name, avatarURL := avatarURL,
        createdAt := now, lastLoginAt := now,
        preferences := [], customData := [] }
    if f.saveUserFails then
      { mem := mem, store := store, trace := [], result := .err .storageError }
    else
      let store1 := { store with savedUser := some user }
      let mem1 := { mem with currentUser := some user, isSignedIn := true }
      let setup : List Action :=
        Action.setUserAttributes ::
          (match store1.sessionToken with
           | some t => [Action.setBearerToken (some t)]
           | none => [])
      { mem := mem1, store := store1,
        trace := [.persistSaveUser user, .commitSignIn user,
          .emitEvent "userSignedIn" (.pUser user)] ++ setup,
        result := .ok }

/-- `UserManager.signOut()`.  Deletes the persisted user and the session
token, clears the in-memory user, sign-in flag and user-data cache,
publishes `userSignedOut`, then best-effort adapter cleanup.  Any storage
failure is caught and only logged: the promise still resolves. -/
def signOut (f : StorageFaults)
    (mem : ManagerState) (store : StorageState) : Outcome :=
  if f.deleteUserFails then
    { mem := mem, store := store, trace := [], result := .ok }
  else
    let store1 := { store with savedUser := none }
    if f.removeSessionTokenFails then
      { mem := mem, store := store1, trace := [.persistDeleteUser], result := .ok }
    else
      let store2 := { store1 with sessionToken := none }
      let mem1 := { mem with currentUser := none, isSignedIn := false, userData := [] }
      { mem := mem1, store := store2,
        trace := [.persistDeleteUser, .removeSessionToken, .commitSignOut,
          .emitEvent "userSignedOut" .pUnit,
          .resetAttribution, .setBearerToken none, .stopCampaign],
        result := .ok }

/-- `UserManager.updateOnboardingStatus(completed)` (private; reached via
`completeOnboarding` / `resetOnboarding`).  Persists the flag, commits it,
publishes `onboardingStatusChanged`, and — only when setting to `true`
while signed in — starts the engagement campaign afterwards.  A storage
failure is caught and only logged. -/
def updateOnboardingStatus (f : StorageFaults) (completed : Bool)
    (mem : ManagerState) (store : StorageState) : Outcome :=
  if f.saveOnboardingFails then
    { mem := mem, store := store, trace := [], result := .ok }
  else
    let store1 := { store with onboardingFlag := completed }
    let mem1 := { mem with isOnboardingCompleted := completed }
    let base : List Action :=
      [.persistSaveOnboarding completed, .commitOnboarding completed,
        .emitEvent "onboardingStatusChanged" (.pFlag completed)]
    { mem := mem1, store := store1,
      trace := base ++ (if completed && mem.isSignedIn then [.startCampaign] else []),
      result := .ok }

/-- `UserManager.completeOnboarding()`. -/
def completeOnboarding (f : StorageFaults)
    (mem : ManagerState) (store : StorageState) : Outcome :=
  updateOnboardingStatus f true mem store

/-- `UserManager.resetOnboarding()`. -/
def resetOnboarding (f : StorageFaults)
    (mem : ManagerState) (store : StorageState) : Outcome :=
  updateOnboardingStatus f false mem store

/-- `UserManager.updateUserDataAsync(data)` run without interference from
other calls (the sequential semantics; for interleavings see the race
model below).  Merges `data` over the in-memory map, persists the merged
map, commits it, publishes `userDataUpdated` with the partial map `data`,
and re-pushes attribution attributes when signed in.  A storage failure is
caught and only logged. -/
def updateUserDataAsync (f : StorageFaults) (data : RecordV)
    (mem : ManagerState) (store : StorageState) : Outcome :=
  let updatedData := rmerge mem.userData data
  if f.saveUserDataFails then
    { mem := mem, store := store, trace := [], result := .ok }
  else
    let store1 := { store with userDataStore := updatedData }
    let mem1 := { mem with userData := updatedData }
    { mem := mem1, store := store1,
      trace := [.persistSaveUserData updatedData, .commitUserData updatedData,
          .emitEvent "userDataUpdated" (.pRecord data)] ++
        (if mem1.isSignedIn then [.setUserAttributes] else []),
      result := .ok }

/-- `UserManager.updateUserData(data)`: fires `updateUserDataAsync`
without awaiting it.  Sequentially it performs the same transition. -/
def updateUserData (f : StorageFaults) (data : RecordV)
    (mem : ManagerState) (store : StorageState) : Outcome :=
  updateUserDataAsync f data mem store

/-- `UserManager.removeUserData(key)`: copies the in-memory map, deletes
`key` from the copy and hands the copy to `updateUserData`. -/
def removeUserData (f : StorageFaults) (key : String)
    (mem : ManagerState) (store : StorageState) : Outcome :=
  updateUserData f (rdelete mem.userData key) mem store

/-- `UserManager.updateProfile(name?, email?, avatarURL?)`.  Throws
`notSignedIn` without a current user; otherwise overlays the provided
fields (`??` semantics), persists the updated user (a failure is rethrown
as a storage error and nothing is committed), commits and publishes
`userProfileUpdated`. -/
def updateProfile (f : StorageFaults)
    (name email avatarURL : Option String)
    (mem : ManagerState) (store : StorageState) : Outcome :=
  match mem.currentUser with
  | none => { mem := mem, store := store, trace := [], result := .err .notSignedIn }
  | some cu =>
    let updatedUser : User :=
      { cu with
        name := nullish name cu.name,
        email := nullish email cu.email,
        avatarURL := nullish avatarURL cu.avatarURL }
    if f.saveUserFails then
      { mem := mem, store := store, trace := [], result := .err .storageError }
    else
      { mem := { mem with currentUser := some updatedUser },
        store := { store with savedUser := some updatedUser },
        trace := [.persistSaveUser updatedUser, .commitProfile updatedUser,
          .emitEvent "userProfileUpdated" (.pUser updatedUser)],
        result := .ok }

/-- `UserManager.resetAllUserData()`.  Deletes the persisted user, resets
the persisted onboarding flag and user-data map, removes the session token
and the last-sync date, then clears all in-memory state, publishes
`userDataReset` and runs best-effort cleanup.  Any storage failure is
caught and only logged: the promise still resolves, and the in-memory
assignments — which come after every persist step — are skipped. -/
def resetAllUserData (f : StorageFaults)
    (mem : ManagerState) (store : StorageState) : Outcome :=
  if f.deleteUserFails then
    { mem := mem, store := store, trace := [], result := .ok }
  else
  let s1 := { store with savedUser := none }
  if f.saveOnboardingFails then
    { mem := mem, store := s1, trace := [.persistDeleteUser], result := .ok }
  else
  let s2 := { s1 with onboardingFlag := false }
  if f.saveUserDataFails then
    { mem := mem, store := s2,
      trace := [.persistDeleteUser, .persistSaveOnboarding false], result := .ok }
  else
  let s3 := { s2 with userDataStore := [] }
  if f.removeSessionTokenFails then
    { mem := mem, store := s3,
      trace := [.persistDeleteUser, .persistSaveOnboarding false,
        .persistSaveUserData []],
      result := .ok }
  else
  let s4 := { s3 with sessionToken := none }
  if f.removeLastSyncFails then
    { mem := mem, store := s4,
      trace := [.persistDeleteUser, .persistSaveOnboarding false,
        .persistSaveUserData [], .removeSessionToken],
      result := .ok }
  else
  let s5 := { s4 with lastSyncDate := none }
  let mem1 : ManagerState :=
    { currentUser := none, isSignedIn := false,
      isOnboardingCompleted := false, userData := [] }
  { mem := mem1, store := s5,
    trace := [.persistDeleteUser, .persistSaveOnboarding false,
      .persistSaveUserData [], .removeSessionToken, .removeLastSync,
      .commitReset, .emitEvent "userDataReset" .pUnit,
      .resetAttribution, .setBearerToken none, .stopCampaign],
    result := .ok }

/-!
### Event emitter (`SimpleEventEmitter`)

Handlers are modelled as data: an identity plus a flag saying whether the
handler throws when invoked.  `emit` walks the registration list in order;
each invocation is wrapped in the source's `try/catch`, so a throwing
handler adds to the caught-error count instead of aborting the walk.
-/

/-- One registered listener: its identity and whether calling it throws. -/
structure EHandler where
  hid : Nat
  fails : Bool := false
deriving DecidableEq

/-- The `listeners` field: event name to list of handlers, in registration
order. -/
abbrev Listeners := List (String × List EHandler)

/-- The handlers registered for an event (`this.listeners[event]`, empty
when absent). -/
def listenersFor (ls : Listeners) (ev : String) : List EHandler :=
  match ls with
  | [] => []
  | (e, hs) :: rest => if e = ev then hs else listenersFor rest ev

/-- `SimpleEventEmitter.on(event, listener)`: append the handler to the
event's list, creating the list when absent. -/
def addListener (ls : Listeners) (ev : String) (h : EHandler) : Listeners :=
  match ls with
  | [] => [(ev, [h])]
  | (e, hs) :: rest =>
      if e = ev then (e, hs ++ [h]) :: rest
      else (e, hs) :: addListener rest ev h

/-- What one `emit` call produces: the synchronous handler invocations in
order (each handler paired with the published arguments) and the number of
handler errors caught by the emitter. -/
structure EmitRun where
  invocations : List (Nat × List Value)
  caught : Nat
deriving DecidableEq

/-- The `forEach` loop inside `emit`: invoke each handler with the
published arguments; the `try/catch` around the call turns a throwing
handler into a logged (counted) error and the loop continues. -/
def dispatch (args : List Value) : List EHandler → EmitRun
  | [] => { invocations := [], caught := 0 }
  | h :: rest =>
      let r := dispatch args rest
      { invocations := (h.hid, args) :: r.invocations,
        caught := (if h.fails then 1 else 0) + r.caught }

/-- `SimpleEventEmitter.emit(event, ...args)`. -/
def emit (ls : Listeners) (ev : String) (args : List Value) : EmitRun :=
  dispatch args (listenersFor ls ev)

/-!
### Interleaving model for concurrent `updateUserData` calls

`updateUserData` calls `updateUserDataAsync` without awaiting it.  Each
in-flight call consists of three atomic segments separated by the `await`
on `saveUserData`:

* `read`: the synchronous prefix — read `this._userData`, compute the
  merged map, hand it to the backend;
* `save`: the backend write completes with the call's merged map;
* `commit`: the continuation after the `await` — assign
  `this._userData = updatedData` and emit.

A schedule is any interleaving of the two calls' segment sequences.  When
the two calls are issued back to back without an `await` between them, the
JavaScript event loop runs both `read` segments before either `commit`
(each call runs synchronously up to its first `await`).
-/

/-- Shared state seen by two in-flight `updateUserDataAsync` calls:
the in-memory map, the persisted map, and each call's local
`updatedData`. -/
structure RaceState where
  mem : RecordV
  persisted : RecordV
  local1 : Option RecordV := none
  local2 : Option RecordV := none
deriving DecidableEq

/-- One atomic segment of one of the two in-flight calls. -/
inductive RStep
  | read1 | save1 | commit1
  | read2 | save2 | commit2
deriving DecidableEq

/-- Effect of one segment, for call 1 carrying `d1` and call 2 carrying
`d2`. -/
def raceStep (d1 d2 : RecordV) (s : RaceState) : RStep → RaceState
  | .read1 => { s with local1 := some (rmerge s.mem d1) }
  | .save1 =>
      match s.local1 with
      | some m => { s with persisted := m }
      | none => s
  | .commit1 =>
      match s.local1 with
      | some m => { s with mem := m }
      | none => s
  | .read2 => { s with local2 := some (rmerge s.mem d2) }
  | .save2 =>
      match s.local2 with
      | some m => { s with persisted := m }
      | none => s
  | .commit2 =>
      match s.local2 with
      | some m => { s with mem := m }
      | none => s

/-- Run a schedule of segments. -/
def runRace (d1 d2 : RecordV) (s : RaceState) (sched : List RStep) : RaceState :=
  sched.foldl (raceStep d1 d2) s

/-- The schedule the JavaScript event loop produces for
`updateUserData(d1); updateUserData(d2)` issued without awaiting: both
synchronous prefixes run first, then the storage writes complete, then the
two continuations run. -/
def jsSchedule : List RStep :=
  [.read1, .read2, .save1, .save2, .commit1, .commit2]

/-- The segment order of call 1. -/
def callSteps1 : List RStep := [.read1, .save1, .commit1]

/-- The segment order of call 2. -/
def callSteps2 : List RStep := [.read2, .save2, .commit2]

/-!
### Record lemmas
-/

theorem rlookup_rset (m : RecordV) (k q : String) (v : Value) :
    rlookup (rset m k v) q = if k = q then some v else rlookup m q := by
  induction m with
  | nil =>
    by_cases h : k = q <;> simp [rset, rlookup, h]
  | cons kv rest ih =>
    obtain ⟨a, b⟩ := kv
    by_cases hak : a = k
    · subst hak
      by_cases haq : a = q <;> simp [rset, rlookup, haq]
    · by_cases haq : a = q
      · subst haq
        have hk : ¬ k = a := fun h => hak h.symm
        simp [rset, rlookup, hak, hk]
      · simp [rset, rlookup, hak, haq, ih]

theorem rmerge_cons (m : RecordV) (kv : String × Value) (p : RecordV) :
    rmerge m (kv :: p) = rmerge (rset m kv.1 kv.2) p := rfl

theorem rlookup_rmerge (m p : RecordV) (k : String) :
    rlookup (rmerge m p) k =
      match rlookupLast p k with
      | some v => some v
      | none => rlookup m k := by
  induction p generalizing m with
  | nil => simp [rmerge, rlookupLast]
  | cons kv rest ih =>
    rw [rmerge_cons, ih]
    cases h : rlookupLast rest k with
    | some w => simp [rlookupLast, h]
    | none =>
      by_cases hk : kv.1 = k <;>
        simp [rlookupLast, h, rlookup_rset, hk]

theorem rlookupLast_eq_none (p : RecordV) (k : String) :
    rlookupLast p k = none ↔ rlookup p k = none := by
  induction p with
  | nil => simp [rlookupLast, rlookup]
  | cons kv rest ih =>
    cases h : rlookupLast rest k with
    | some w =>
      have hr : rlookup rest k ≠ none := by
        intro hnone
        rw [← ih] at hnone
        simp [h] at hnone
      by_cases hk : kv.1 = k <;>
        simp [rlookupLast, rlookup, h, hk, hr]
    | none =>
      have hr : rlookup rest k = none := ih.mp h
      by_cases hk : kv.1 = k <;>
        simp [rlookupLast, rlookup, h, hk, hr]

theorem rlookup_not_mem (p : RecordV) (k : String) (h : k ∉ rkeys p) :
    rlookup p k = none := by
  induction p with
  | nil => rfl
  | cons kv rest ih =>
    simp only [rkeys, List.map_cons, List.mem_cons] at h
    push_neg at h
    have hk : ¬ kv.1 = k := fun he => h.1 he.symm
    simpa [rlookup, hk] using ih (by simpa [rkeys] using h.2)

theorem rlookupLast_of_nodup (p : RecordV) (k : String)
    (hnd : (rkeys p).Nodup) : rlookupLast p k = rlookup p k := by
  induction p with
  | nil => rfl
  | cons kv rest ih =>
    simp only [rkeys, List.map_cons, List.nodup_cons] at hnd
    by_cases hk : kv.1 = k
    · subst hk
      have hrest : rlookup rest kv.1 = none :=
        rlookup_not_mem rest kv.1 (by simpa [rkeys] using hnd.1)
      have hlast : rlookupLast rest kv.1 = none :=
        (rlookupLast_eq_none rest kv.1).mpr hrest
      simp [rlookupLast, rlookup, hlast]
    · have ihr := ih (by simpa [rkeys] using hnd.2)
      cases h : rlookupLast rest k with
      | some w => simp [rlookupLast, rlookup, h, hk, ← ihr]
      | none => simp [rlookupLast, rlookup, h, hk, ← ihr]

theorem rlookup_rmerge_of_none (m p : RecordV) (k : String)
    (h : rlookup p k = none) : rlookup (rmerge m p) k = rlookup m k := by
  have hl : rlookupLast p k = none := (rlookupLast_eq_none p k).mpr h
  rw [rlookup_rmerge, hl]

theorem rlookup_rmerge_of_some (m p : RecordV) (k : String) (v : Value)
    (hnd : (rkeys p).Nodup) (h : rlookup p k = some v) :
    rlookup (rmerge m p) k = some v := by
  have hl : rlookupLast p k = some v := by
    rw [rlookupLast_of_nodup p k hnd, h]
  rw [rlookup_rmerge, hl]

theorem rlookup_rmerge_ne_none_left (m p : RecordV) (k : String)
    (h : rlookup m k ≠ none) : rlookup (rmerge m p) k ≠ none := by
  rw [rlookup_rmerge]
  cases hl : rlookupLast p k <;> simp [h]

theorem rlookup_rmerge_ne_none_right (m p : RecordV) (k : String)
    (h : rlookup p k ≠ none) : rlookup (rmerge m p) k ≠ none := by
  rw [rlookup_rmerge]
  cases hl : rlookupLast p k with
  | some w => simp
  | none =>
    exact absurd ((rlookupLast_eq_none p k).mp hl) h

theorem rdelete_cons (kv : String × Value) (rest : RecordV) (k : String) :
    rdelete (kv :: rest) k =
      if kv.1 = k then rdelete rest k else kv :: rdelete rest k := by
  by_cases h : kv.1 = k <;> simp [rdelete, List.filter, h]

theorem rlookup_rdelete (m : RecordV) (k q : String) :
    rlookup (rdelete m k) q = if q = k then none else rlookup m q := by
  induction m with
  | nil => simp [rdelete, rlookup]
  | cons kv rest ih =>
    rw [rdelete_cons]
    by_cases hkk : kv.1 = k
    · rw [if_pos hkk, ih]
      by_cases hq : q = k
      · simp [hq]
      · have hkvq : ¬ kv.1 = q := by
          rw [hkk]
          exact fun h => hq h.symm
        simp [rlookup, hq, hkvq]
    · rw [if_neg hkk]
      by_cases hkvq : kv.1 = q
      · have hq : ¬ q = k := by
          intro h
          exact hkk (by rw [hkvq, h])
        simp [rlookup, hkvq, hq]
      · simp [rlookup, hkvq, ih]

theorem rkeys_rdelete_nodup (m : RecordV) (k : String)
    (hnd : (rkeys m).Nodup) : (rkeys (rdelete m k)).Nodup := by
  have hsub : List.Sublist (rdelete m k) m := List.filter_sublist m
  exact List.Nodup.sublist (List.Sublist.map Prod.fst hsub) hnd

theorem rlookup_rmerge_rdelete (m : RecordV) (k q : String)
    (hnd : (rkeys m).Nodup) :
    rlookup (rmerge m (rdelete m k)) q = rlookup m q := by
  by_cases hq : q = k
  · subst hq
    have hnone : rlookup (rdelete m q) q = none := by
      simp [rlookup_rdelete]
    rw [rlookup_rmerge_of_none m _ q hnone]
  · have hdel : rlookup (rdelete m k) q = rlookup m q := by
      simp [rlookup_rdelete, hq]
    cases hv : rlookup (rdelete m k) q with
    | none =>
      rw [rlookup_rmerge_of_none m _ q hv]
    | some v =>
      rw [rlookup_rmerge_of_some m _ q v (rkeys_rdelete_nodup m k hnd) hv]
      rw [← hdel, hv]

/-!
### Shared concrete example values
-/

/-- A concrete signed-in user. -/
def uEx : User := { id := "u1", createdAt := 10, lastLoginAt := 10 }

/-- A concrete signed-in, onboarded in-memory state with one user-data
entry. -/
def memEx : ManagerState :=
  { currentUser := some uEx, isSignedIn := true,
    isOnboardingCompleted := true, userData := [("k", Value.vNat 1)] }

/-- A concrete persisted state matching `memEx`. -/
def storeEx : StorageState :=
  { savedUser := some uEx, onboardingFlag := true,
    userDataStore := [("k", Value.vNat 1)],
    sessionToken := some "tok", lastSyncDate := some 5 }

/-- The partial map of the first concurrent update, `{a: 1}`. -/
def dA : RecordV := [("a", Value.vNat 1)]

/-- The partial map of the second concurrent update, `{b: 2}`. -/
def dB : RecordV := [("b", Value.vNat 2)]

/-- Empty shared state for the race model. -/
def raceInit : RaceState := { mem := [], persisted := [] }

/-- A fresh (signed-out, not onboarded, empty map) in-memory state. -/
def memNew : ManagerState := {}

/-- A fresh (empty) persisted state. -/
def storeNew : StorageState := {}

/-- A fault configuration in which the user-record save and the
user-record delete both reject. -/
def faultsSave : StorageFaults := { saveUserFails := true, deleteUserFails := true }

/-!
### Claims
-/

/-- Claim C1 (amended): `signIn` and `updateProfile` are atomic with
respect to persistence — when the persist step fails, the in-memory and
persisted state are unchanged and the storage error propagates to the
caller.  `resetAllUserData` is likewise atomic in memory when its first
persist step fails, but — contrary to the original claim — it swallows the
storage error (the `catch` only logs), so the call resolves successfully
instead of propagating the failure. -/
theorem c1_persistence_atomicity (f : StorageFaults) (now : Nat)
    (userId : String) (e n a nm em av : Option String)
    (mem : ManagerState) (store : StorageState) (cu : User)
    (hid : ¬ jsTrim userId = "") (hsave : f.saveUserFails = true)
    (hdel : f.deleteUserFails = true) (hcu : mem.currentUser = some cu) :
    signIn f now userId e n a mem store =
      { mem := mem, store := store, trace := [], result := .err .storageError } ∧
    updateProfile f nm em av mem store =
      { mem := mem, store := store, trace := [], result := .err .storageError } ∧
    resetAllUserData f mem store =
      { mem := mem, store := store, trace := [], result := .ok } := by
  refine ⟨?_, ?_, ?_⟩
  · simp [signIn, hid, hsave]
  · simp [updateProfile, hcu, hsave]
  · simp [resetAllUserData, hdel]

/-- Claim C1, counterexample to the original claim: with a rejecting
backend, `resetAllUserData` resolves with `OpRes.ok` — the storage
failure does not propagate to the caller. -/
theorem c1_counterexample :
    faultsSave.deleteUserFails = true ∧
    (resetAllUserData faultsSave memEx storeEx).result = OpRes.ok ∧
    OpRes.ok ≠ OpRes.err UMError.storageError := by
  refine ⟨rfl, rfl, by decide⟩

/-- Claim C1, witness: the amended theorem applied at a concrete state
and fault configuration. -/
theorem c1_witness :
    signIn faultsSave 5 "u1" none none none memEx storeEx =
      { mem := memEx, store := storeEx, trace := [], result := .err .storageError } ∧
    updateProfile faultsSave (some "N") none none memEx storeEx =
      { mem := memEx, store := storeEx, trace := [], result := .err .storageError } ∧
    resetAllUserData faultsSave memEx storeEx =
      { mem := memEx, store := storeEx, trace := [], result := .ok } :=
  c1_persistence_atomicity faultsSave 5 "u1" none none none (some "N") none none
    memEx storeEx uEx (by decide) rfl rfl rfl

/-- Claim C2 (amended): `signIn` fails with `invalidUserData` exactly when
the trimmed id is empty — which covers the empty string but also every
whitespace-only id — and such a failure leaves all state unchanged; when
the trimmed id is non-empty and storage succeeds, `signIn` resolves
successfully (in particular it does not fail with `invalidUserData`). -/
theorem c2_signin_validation (f : StorageFaults) (now : Nat)
    (userId : String) (e n a : Option String)
    (mem : ManagerState) (store : StorageState) :
    (jsTrim userId = "" →
      signIn f now userId e n a mem store =
        { mem := mem, store := store, trace := [], result := .err .invalidUserData }) ∧
    (¬ jsTrim userId = "" → f.saveUserFails = false →
      (signIn f now userId e n a mem store).result = OpRes.ok) := by
  constructor
  · intro h
    simp [signIn, h]
  · intro h hf
    simp [signIn, h, hf]

/-- Claim C2, counterexample to the original claim: the id `" "` is a
non-empty string, yet `signIn` rejects it with `invalidUserData`, because
the source validates `userId.trim()`. -/
theorem c2_counterexample :
    (" " : String) ≠ "" ∧
    (signIn noFaults 0 " " none none none memEx storeEx).result =
      OpRes.err UMError.invalidUserData := by
  refine ⟨by decide, rfl⟩

/-- Claim C2, witness: the amended theorem applied at the empty id and at
a valid id. -/
theorem c2_witness :
    signIn noFaults 0 "" none none none memEx storeEx =
      { mem := memEx, store := storeEx, trace := [], result := .err .invalidUserData } ∧
    (signIn noFaults 0 "u1" none none none memEx storeEx).result = OpRes.ok :=
  ⟨(c2_signin_validation noFaults 0 "" none none none memEx storeEx).1 (by decide),
   (c2_signin_validation noFaults 0 "u1" none none none memEx storeEx).2 (by decide) rfl⟩

/-- Claim C3 (amended): after a successful `signOut`, `isSignedIn` is
`false` and `currentUser` is absent; the in-memory onboarding flag, the
persisted onboarding flag and the persisted user-data map all remain
unchanged — but, contrary to the original claim, the in-memory `userData`
cache does not remain unchanged: the source assigns `this._userData = {}`,
so the `userData` accessor returns the empty map afterwards. -/
theorem c3_signout_effects (f : StorageFaults) (mem : ManagerState)
    (store : StorageState) (hdel : f.deleteUserFails = false)
    (htok : f.removeSessionTokenFails = false) :
    (signOut f mem store).mem.isSignedIn = false ∧
    (signOut f mem store).mem.currentUser = none ∧
    (signOut f mem store).mem.isOnboardingCompleted = mem.isOnboardingCompleted ∧
    (signOut f mem store).store.onboardingFlag = store.onboardingFlag ∧
    (signOut f mem store).store.userDataStore = store.userDataStore ∧
    (signOut f mem store).mem.userData = [] := by
  refine ⟨?_, ?_, ?_, ?_, ?_, ?_⟩ <;> simp [signOut, hdel, htok]

/-- Claim C3, counterexample to the original claim: starting from an
onboarded state with a non-empty user-data map, a successful `signOut`
leaves the in-memory `userData` empty rather than unchanged. -/
theorem c3_counterexample :
    memEx.isOnboardingCompleted = true ∧
    memEx.userData = [("k", Value.vNat 1)] ∧
    (signOut noFaults memEx storeEx).result = OpRes.ok ∧
    (signOut noFaults memEx storeEx).mem.userData = [] ∧
    ([] : RecordV) ≠ [("k", Value.vNat 1)] := by
  refine ⟨rfl, rfl, rfl, rfl, by decide⟩

/-- Claim C3, witness: the amended theorem applied at the concrete
onboarded state with one user-data entry. -/
theorem c3_witness :
    (signOut noFaults memEx storeEx).mem.isSignedIn = false ∧
    (signOut noFaults memEx storeEx).mem.currentUser = none ∧
    (signOut noFaults memEx storeEx).mem.isOnboardingCompleted =
      memEx.isOnboardingCompleted ∧
    (signOut noFaults memEx storeEx).store.onboardingFlag = storeEx.onboardingFlag ∧
    (signOut noFaults memEx storeEx).store.userDataStore = storeEx.userDataStore ∧
    (signOut noFaults memEx storeEx).mem.userData = [] :=
  c3_signout_effects noFaults memEx storeEx rfl rfl

/-- Claim C4 (code bug): two concurrent `updateUserData` calls can lose an
update.  `jsSchedule` is the interleaving the event loop produces for
`updateUserData({a:1}); updateUserData({b:2})` issued without awaiting —
both synchronous read-and-merge prefixes run before either continuation,
because each call suspends at the `await` on `saveUserData` and there is
no serialization of writes to the user-data entity.  It is a valid
interleaving of the two calls' segment sequences, and in the final state
the key `"a"` is absent from both the persisted and the in-memory map:
the first update is lost, contradicting the claimed (and specified)
no-lost-update guarantee. -/
theorem c4_lost_update :
    List.Sublist callSteps1 jsSchedule ∧
    List.Sublist callSteps2 jsSchedule ∧
    jsSchedule.length = callSteps1.length + callSteps2.length ∧
    rlookup (runRace dA dB raceInit jsSchedule).persisted "a" = none ∧
    rlookup (runRace dA dB raceInit jsSchedule).mem "a" = none ∧
    rlookup (runRace dA dB raceInit jsSchedule).persisted "b" = some (Value.vNat 2) := by
  refine ⟨by decide, by decide, by decide, by decide, by decide, by decide⟩

/-- Claim C5 (confirmed): a successful `updateUserData(P)` leaves the
in-memory map equal to the merge of the old map `M` with `P` — keys of `P`
overwrite, every other key of `M` keeps its value — and publishes exactly
one `userDataUpdated` event carrying the partial map `P` itself, not the
merged map; `updateUserData({a:1})` followed by `updateUserData({b:2})`
from the empty map yields a map holding both `a = 1` and `b = 2`. -/
theorem c5_merge_and_publish (f : StorageFaults) (data : RecordV)
    (mem : ManagerState) (store : StorageState) (k : String) (v : Value)
    (hf : f.saveUserDataFails = false) (hnd : (rkeys data).Nodup) :
    (rlookup data k = none →
      rlookup (updateUserData f data mem store).mem.userData k =
        rlookup mem.userData k) ∧
    (rlookup data k = some v →
      rlookup (updateUserData f data mem store).mem.userData k = some v) ∧
    emittedEvents (updateUserData f data mem store).trace =
      [("userDataUpdated", EventPayload.pRecord data)] ∧
    rlookup (updateUserData noFaults dB
        (updateUserData noFaults dA memNew storeNew).mem
        (updateUserData noFaults dA memNew storeNew).store).mem.userData "a" =
      some (Value.vNat 1) ∧
    rlookup (updateUserData noFaults dB
        (updateUserData noFaults dA memNew storeNew).mem
        (updateUserData noFaults dA memNew storeNew).store).mem.userData "b" =
      some (Value.vNat 2) := by
  refine ⟨?_, ?_, ?_, by decide, by decide⟩
  · intro h
    simp only [updateUserData, updateUserDataAsync, hf]
    simpa using rlookup_rmerge_of_none mem.userData data k h
  · intro h
    simp only [updateUserData, updateUserDataAsync, hf]
    simpa using rlookup_rmerge_of_some mem.userData data k v hnd h
  · cases hs : mem.isSignedIn <;>
      simp [updateUserData, updateUserDataAsync, hf, hs, emittedEvents]

/-- Claim C5, witness: the theorem applied at the concrete state `memEx`
(whose map holds `k = 1`) with the partial map `{a: 1}`. -/
theorem c5_witness :
    rlookup (updateUserData noFaults dA memEx storeEx).mem.userData "a" =
      some (Value.vNat 1) ∧
    rlookup (updateUserData noFaults dA memEx storeEx).mem.userData "k" =
      rlookup memEx.userData "k" ∧
    emittedEvents (updateUserData noFaults dA memEx storeEx).trace =
      [("userDataUpdated", EventPayload.pRecord dA)] := by
  have h := c5_merge_and_publish noFaults dA memEx storeEx "a" (Value.vNat 1)
    rfl (by decide)
  have hk := c5_merge_and_publish noFaults dA memEx storeEx "k" (Value.vNat 1)
    rfl (by decide)
  exact ⟨h.2.1 (by decide), hk.1 (by decide), h.2.2.1⟩

/-- Claim C6 (confirmed): when every storage operation succeeds,
`resetAllUserData` ends — from any prior in-memory and persisted state —
in the default manager state: signed out, no current user, onboarding not
completed and an empty user-data map, and the call resolves
successfully. -/
theorem c6_reset_total (f : StorageFaults) (mem : ManagerState)
    (store : StorageState) (hf : f = noFaults) :
    (resetAllUserData f mem store).mem =
      { currentUser := none, isSignedIn := false,
        isOnboardingCompleted := false, userData := [] } ∧
    (resetAllUserData f mem store).result = OpRes.ok := by
  subst hf
  constructor <;> simp [resetAllUserData, noFaults]

/-- Claim C6, witness: the theorem applied at the concrete signed-in,
onboarded state. -/
theorem c6_witness :
    (resetAllUserData noFaults memEx storeEx).mem =
      { currentUser := none, isSignedIn := false,
        isOnboardingCompleted := false, userData := [] } ∧
    (resetAllUserData noFaults memEx storeEx).result = OpRes.ok :=
  c6_reset_total noFaults memEx storeEx rfl

/-- Claim C7 (confirmed): `completeOnboarding` while signed out never
invokes the engagement-campaign start; while signed in with the persist
succeeding, its trace is exactly the persisted onboarding write, the
in-memory commit, the event emission and then one campaign start — so the
campaign runs exactly once per invocation and only after the persisted
write and the in-memory commit; and when the persist fails, the campaign
never runs and the state is unchanged. -/
theorem c7_campaign_gating (f : StorageFaults) (mem : ManagerState)
    (store : StorageState) :
    (mem.isSignedIn = false →
      (completeOnboarding f mem store).trace.count Action.startCampaign = 0) ∧
    (mem.isSignedIn = true → f.saveOnboardingFails = false →
      (completeOnboarding f mem store).trace =
        [Action.persistSaveOnboarding true, Action.commitOnboarding true,
         Action.emitEvent "onboardingStatusChanged" (EventPayload.pFlag true),
         Action.startCampaign] ∧
      (completeOnboarding f mem store).trace.count Action.startCampaign = 1) ∧
    (f.saveOnboardingFails = true →
      (completeOnboarding f mem store).trace.count Action.startCampaign = 0 ∧
      (completeOnboarding f mem store).mem = mem ∧
      (completeOnboarding f mem store).store = store) := by
  refine ⟨?_, ?_, ?_⟩
  · intro hs
    cases hf : f.saveOnboardingFails <;>
      simp [completeOnboarding, updateOnboardingStatus, hs, hf]
  · intro hs hf
    constructor <;> simp [completeOnboarding, updateOnboardingStatus, hs, hf]
  · intro hf
    refine ⟨?_, ?_, ?_⟩ <;> simp [completeOnboarding, updateOnboardingStatus, hf]

/-- Claim C7, witness: the theorem applied at a signed-in state (campaign
exactly once, last) and at a signed-out state (no campaign). -/
theorem c7_witness :
    (completeOnboarding noFaults memEx storeEx).trace =
      [Action.persistSaveOnboarding true, Action.commitOnboarding true,
       Action.emitEvent "onboardingStatusChanged" (EventPayload.pFlag true),
       Action.startCampaign] ∧
    (completeOnboarding noFaults memNew storeNew).trace.count Action.startCampaign = 0 :=
  ⟨((c7_campaign_gating noFaults memEx storeEx).2.1 rfl rfl).1,
   (c7_campaign_gating noFaults memNew storeNew).1 rfl⟩

theorem dispatch_invocations (args : List Value) (hs : List EHandler) :
    (dispatch args hs).invocations = hs.map (fun h => (h.hid, args)) := by
  induction hs with
  | nil => simp [dispatch]
  | cons h rest ih => simp [dispatch, ih]

theorem dispatch_caught (args : List Value) (hs : List EHandler) :
    (dispatch args hs).caught = (hs.filter (fun h => h.fails)).length := by
  induction hs with
  | nil => simp [dispatch]
  | cons h rest ih =>
    cases hf : h.fails <;> simp [dispatch, ih, List.filter, hf, Nat.add_comm]

theorem listenersFor_addListener (ls : Listeners) (ev : String) (h : EHandler) :
    listenersFor (addListener ls ev h) ev = listenersFor ls ev ++ [h] := by
  induction ls with
  | nil => simp [addListener, listenersFor]
  | cons p rest ih =>
    by_cases he : p.1 = ev <;> simp [addListener, listenersFor, he, ih]

/-- Claim C8 (confirmed): `emit` invokes each handler registered for the
event exactly once, synchronously, in registration order, with the
published arguments — the invocation list is the registration list itself
mapped with the arguments, whatever the handlers' failure flags, and a
throwing handler is counted as caught instead of aborting the walk or
reaching the publisher; after subscribing two further handlers, both are
invoked after the existing ones, in subscription order; and a successful
`signIn` publishes `userSignedIn` exactly once. -/
theorem c8_event_dispatch (ls : Listeners) (ev : String) (args : List Value)
    (h1 h2 : EHandler) (f : StorageFaults) (now : Nat) (userId : String)
    (e n a : Option String) (mem : ManagerState) (store : StorageState)
    (hid : ¬ jsTrim userId = "") (hf : f.saveUserFails = false) :
    (emit ls ev args).invocations =
      (listenersFor ls ev).map (fun h => (h.hid, args)) ∧
    (emit ls ev args).caught =
      ((listenersFor ls ev).filter (fun h => h.fails)).length ∧
    (emit (addListener (addListener ls ev h1) ev h2) ev args).invocations =
      ((listenersFor ls ev).map (fun h => (h.hid, args))) ++
        [(h1.hid, args), (h2.hid, args)] ∧
    emitCount (signIn f now userId e n a mem store).trace "userSignedIn" = 1 := by
  refine ⟨dispatch_invocations args _, dispatch_caught args _, ?_, ?_⟩
  · rw [emit, listenersFor_addListener, listenersFor_addListener,
      dispatch_invocations]
    simp
  · cases ht : store.sessionToken <;>
      simp [signIn, hid, hf, emitCount, emittedEvents, ht]

/-- Claim C8, witness: two handlers subscribed to `userSignedIn` — the
first of which throws — are both invoked in subscription order, and a
concrete successful `signIn` publishes `userSignedIn` once. -/
theorem c8_witness :
    (emit (addListener (addListener [] "userSignedIn" ⟨1, true⟩)
        "userSignedIn" ⟨2, false⟩) "userSignedIn" [Value.vStr "x"]).invocations =
      [(1, [Value.vStr "x"]), (2, [Value.vStr "x"])] ∧
    emitCount (signIn noFaults 7 "u1" none none none memEx storeEx).trace
      "userSignedIn" = 1 := by
  have h := c8_event_dispatch [] "userSignedIn" [Value.vStr "x"] ⟨1, true⟩
    ⟨2, false⟩ noFaults 7 "u1" none none none memEx storeEx (by decide) rfl
  refine ⟨?_, h.2.2.2⟩
  have h3 := h.2.2.1
  simpa [listenersFor] using h3

/-- Claim C9 (amended): `createdAt` is not preserved across sign-ins —
`signIn` always builds a fresh `User` with both `createdAt` and
`lastLoginAt` set to the current time, so a second sign-in after a
sign-out carries the second sign-in's time as `createdAt`, not the time
established at the first sign-in. -/
theorem c9_created_at_each_signin (f : StorageFaults) (now : Nat)
    (userId : String) (e n a : Option String)
    (mem : ManagerState) (store : StorageState)
    (hid : ¬ jsTrim userId = "") (hf : f.saveUserFails = false) :
    (signIn f now userId e n a mem store).mem.currentUser.map User.createdAt =
      some now ∧
    (signIn f now userId e n a mem store).mem.currentUser.map User.lastLoginAt =
      some now := by
  constructor <;> simp [signIn, hid, hf]

/-- First step of the C9 scenario: sign in at time 100 from a fresh
state. -/
def c9FirstRun : Outcome := signIn noFaults 100 "u1" none none none memNew storeNew

/-- Second step of the C9 scenario: sign out. -/
def c9AfterOut : Outcome := signOut noFaults c9FirstRun.mem c9FirstRun.store

/-- Third step of the C9 scenario: sign in again at time 200. -/
def c9SecondRun : Outcome :=
  signIn noFaults 200 "u1" none none none c9AfterOut.mem c9AfterOut.store

/-- Claim C9, counterexample: after sign-in at time 100, sign-out and
sign-in at time 200, the current user's `createdAt` is 200, not the 100
established at the first sign-in. -/
theorem c9_counterexample :
    c9FirstRun.mem.currentUser.map User.createdAt = some 100 ∧
    c9SecondRun.mem.currentUser.map User.createdAt = some 200 ∧
    some (200 : Nat) ≠ some 100 := by
  refine ⟨rfl, rfl, by decide⟩

/-- Claim C9, witness: the amended theorem applied at a concrete
sign-in. -/
theorem c9_witness :
    (signIn noFaults 42 "u1" none none none memEx storeEx).mem.currentUser.map
      User.createdAt = some 42 ∧
    (signIn noFaults 42 "u1" none none none memEx storeEx).mem.currentUser.map
      User.lastLoginAt = some 42 :=
  c9_created_at_each_signin noFaults 42 "u1" none none none memEx storeEx
    (by decide) rfl

/-- Claim C10 (confirmed): `removeUserData` never removes a key — the
write-back path merges the modified copy into the existing map and a
merge cannot delete a key, so every key of the in-memory map keeps its
old value (in particular the removed key), and the key set of the map is
non-decreasing under `updateUserData`. -/
theorem c10_remove_never_removes (f : StorageFaults) (key q : String)
    (data : RecordV) (mem : ManagerState) (store : StorageState)
    (hf : f.saveUserDataFails = false) (hnd : (rkeys mem.userData).Nodup) :
    rlookup (removeUserData f key mem store).mem.userData q =
      rlookup mem.userData q ∧
    (rlookup mem.userData q ≠ none →
      rlookup (updateUserData f data mem store).mem.userData q ≠ none) := by
  constructor
  · simp only [removeUserData, updateUserData, updateUserDataAsync, hf]
    simpa using rlookup_rmerge_rdelete mem.userData key q hnd
  · intro h
    simp only [updateUserData, updateUserDataAsync, hf]
    simpa using rlookup_rmerge_ne_none_left mem.userData data q h

/-- Claim C10, witness: removing the key `"k"` from the concrete state
whose map holds `k = 1` leaves `k = 1` in place, and an unrelated update
keeps the key present. -/
theorem c10_witness :
    rlookup (removeUserData noFaults "k" memEx storeEx).mem.userData "k" =
      rlookup memEx.userData "k" ∧
    rlookup (updateUserData noFaults dA memEx storeEx).mem.userData "k" ≠ none := by
  have h := c10_remove_never_removes noFaults "k" "k" dA memEx storeEx rfl
    (by decide)
  exact ⟨h.1, h.2 (by decide)⟩

end ExpoBoilerplate
